import Mathlib

/-!
Verification development for the Aruba Central CLI "bulk edit" compiler
(`lib/centralCLI/central.py`): the CSV ingestor `BuildCLI.get_bulkedit_data`,
the command emitter / group reconciler `BuildCLI.build_cmds`, and the external
device-management collaborator interface it uses.

The Python code is shallowly embedded: dictionaries become association lists
with insertion-order-preserving update (matching Python dict semantics),
Python truthiness of looked-up values is modelled explicitly, a raised
`KeyError` becomes `Except.error`, and `print` diagnostics become lists of
strings.  Mutable objects that are stored by reference (the shared `_common`
dict and `_vlans` list in `get_bulkedit_data`) are modelled by recording a
reference tag in the mapping and resolving it against the final buffer
contents once the fold over all rows is complete, which is exactly what a
reader of the final `cli_data` observes in Python.
-/

namespace CentralCli

/-- Python `str.startswith`: the pattern's characters are a prefix of the
string's characters. -/
def pyStartsWith (s pat : String) : Bool :=
  List.isPrefixOf pat.toList s.toList

/-- Helper for substring search over character lists. -/
def containsAux (pat : List Char) : List Char → Bool
  | [] => List.isPrefixOf pat []
  | c :: rest => List.isPrefixOf pat (c :: rest) || containsAux pat rest

/-- Python `pat in s` substring test (case-sensitive). -/
def pyContains (s pat : String) : Bool :=
  containsAux pat.toList s.toList

/-- Python `str.lower()` over a string's characters. -/
def pyLower (s : String) : String :=
  String.mk (s.toList.map Char.toLower)

/-- Whitespace characters stripped by Python `str.strip()`. -/
def isSpaceChar (c : Char) : Bool :=
  c == ' ' || c == '\t' || c == '\n' || c == '\r' || c == Char.ofNat 11 || c == Char.ofNat 12

/-- Strip leading and trailing whitespace from a character list. -/
def stripList (cs : List Char) : List Char :=
  ((cs.dropWhile isSpaceChar).reverse.dropWhile isSpaceChar).reverse

/-- Header-key normalisation from `get_bulkedit_data`:
`k.strip().lower().replace(' ', '_')`. -/
def normKey (k : String) : String :=
  String.mk (((stripList k.toList).map Char.toLower).map (fun c => if c == ' ' then '_' else c))

/-- A value stored in a VLAN record: Python stores either a string scalar or a
list of strings (`dns_servers`, `dhcp_def_gws`, `dhcp_excludes`). -/
inductive FieldVal where
  | s : String → FieldVal
  | l : List String → FieldVal
deriving DecidableEq, Repr

/-- Dictionary lookup on an association list (Python `d[k]` / `d.get(k)`). -/
def dlookup {α : Type} : List (String × α) → String → Option α
  | [], _ => none
  | (k0, v0) :: rest, k => if k0 == k then some v0 else dlookup rest k

/-- Dictionary update `d[k] = v`: replaces the value in place if the key is
present (Python dicts keep the original insertion position), otherwise
appends the new binding at the end. -/
def dset {α : Type} : List (String × α) → String → α → List (String × α)
  | [], k, v => [(k, v)]
  | (k0, v0) :: rest, k, v => if k0 == k then (k, v) :: rest else (k0, v0) :: dset rest k v

/-- One VLAN record accumulator (`vlan_data` in the source): a dict from
field name to value. -/
abbrev VlanData := List (String × FieldVal)

/-- Python truthiness of an optional looked-up value: absent keys, empty
strings and empty lists are falsy. -/
def truthy : Option FieldVal → Bool
  | none => false
  | some (FieldVal.s s) => !(s == "")
  | some (FieldVal.l xs) => !xs.isEmpty

/-- Render a field value as the scalar string the emitter interpolates.
The emitter only reads scalar fields this way; list values do not occur at
these keys for ingestion-produced data. -/
def sval : FieldVal → String
  | FieldVal.s s => s
  | FieldVal.l _ => ""

/-- Scalar rendering of an optional value (used only under truthy guards,
where the key is necessarily present). -/
def svalOpt : Option FieldVal → String
  | some fv => sval fv
  | none => ""

/-- The list stored at a key (used for `dns_servers`, `dhcp_def_gws`,
`dhcp_excludes`). -/
def lval : Option FieldVal → List String
  | some (FieldVal.l xs) => xs
  | _ => []

/-- Python `v[k]` on a VLAN record: `KeyError` when the key is absent,
otherwise the scalar rendering of the stored value. -/
def dget (v : VlanData) (k : String) : Except String String :=
  match dlookup v k with
  | none => Except.error ("KeyError: " ++ k)
  | some fv => Except.ok (sval fv)

/-- `vlan_data[key] = [v] if key not in vlan_data else [*vlan_data[key], *[v]]`:
create a one-element list when the key is absent, otherwise splat the
existing value and append.  Splatting a stored list keeps its elements;
splatting a stored string (reachable when a CSV column literally named e.g.
`dhcp_excludes` stored a scalar via the catch-all branch) iterates it into
its one-character strings, exactly as Python's `[*existing, *[v]]` does. -/
def appendToList (d : VlanData) (k x : String) : VlanData :=
  match dlookup d k with
  | none => dset d k (FieldVal.l [x])
  | some (FieldVal.l xs) => dset d k (FieldVal.l (xs ++ [x]))
  | some (FieldVal.s s) =>
    dset d k (FieldVal.l (s.toList.map (fun c => String.mk [c]) ++ [x]))

/-- The fixed common-attribute keys recognised by `get_bulkedit_data`. -/
def commonAttrKeys : List String :=
  ["group", "model", "hostname", "bg_peer_ip", "controller_vlan",
   "zs_site_to_site_map_name", "source_fqdn"]

/-- The routing prefixes that send a column into VLAN-record handling.
Note the source spells the last one `ppoe`, not `pppoe`. -/
def vlanRouteKeys : List String :=
  ["vlan", "dhcp", "domain", "dns", "vrrp", "access_port", "ppoe"]

/-- The ingestion state of `get_bulkedit_data`: the result dict `cli_data`
(mapping each MAC to a tag telling whether it holds the shared buffers or
the `{}` placeholder written when a `mac_address` value is read), the shared
working buffers `_common` and `_vlans`, the current MAC, the pending DHCP
exclude start, the validation diagnostics printed so far, and the per-row
VLAN accumulator `vlan_data`. -/
structure PState where
  cliData : List (String × Bool)
  common : List (String × String)
  vlans : List VlanData
  mac : String
  excludeStart : String
  diags : List String
  vlanData : VlanData
deriving DecidableEq, Repr

/-- Processing of one `(header key, value)` pair inside the row loop of
`get_bulkedit_data` (source lines 545-576). -/
def processKV (st : PState) (kv : String × String) : PState :=
  let k := normKey kv.1
  let v := kv.2
  if k == "mac_address" then
    { st with mac := v, cliData := dset st.cliData v false }
  else if commonAttrKeys.contains k then
    { st with common := dset st.common k v }
  else if vlanRouteKeys.any (fun p => pyStartsWith k p) then
    if k == "vlan_id" then
      if st.vlanData.isEmpty then { st with vlanData := [(k, FieldVal.s v)] }
      else { st with vlans := st.vlans ++ [st.vlanData], vlanData := [(k, FieldVal.s v)] }
    else if pyStartsWith k "dns_server_" then
      { st with vlanData := appendToList st.vlanData "dns_servers" v }
    else if pyStartsWith k "dhcp_default_router" then
      { st with vlanData := appendToList st.vlanData "dhcp_def_gws" v }
    else if pyStartsWith k "dhcp_exclude_start" then
      { st with excludeStart := v }
    else if pyStartsWith k "dhcp_exclude_end" then
      if st.excludeStart == "" then
        { st with diags := st.diags ++
            ["Validation Error DHCP Exclude End with no preceding start (" ++ v ++ ")... Ignoring"] }
      else
        { st with
            vlanData := appendToList st.vlanData "dhcp_excludes"
              ("ip dhcp exclude-address " ++ st.excludeStart ++ " " ++ v),
            excludeStart := "" }
    else { st with vlanData := dset st.vlanData k (FieldVal.s v) }
  else st

/-- Processing of one data row: reset the per-row accumulator, fold the
header-zipped values through `processKV`, then append the accumulator to the
shared `_vlans` list and store the shared buffers under the current MAC
(source lines 543-579; the end-of-row append is unconditional). -/
def processRow (header : List String) (st : PState) (row : List String) : PState :=
  let st1 := (header.zip row).foldl processKV { st with vlanData := [] }
  { st1 with
      vlans := st1.vlans ++ [st1.vlanData],
      cliData := dset st1.cliData st1.mac true }

/-- The state before any row is processed (`_mac = "error"`, empty buffers). -/
def initState : PState :=
  { cliData := [], common := [], vlans := [], mac := "error", excludeStart := "",
    diags := [], vlanData := [] }

/-- Fold all data rows of the file through `processRow`. -/
def ingestAll (header : List String) (rows : List (List String)) : PState :=
  rows.foldl (processRow header) initState

/-- The value stored for one device in `cli_data`: the `_common` attribute
dict and the `vlans` list. -/
structure DeviceEntry where
  common : List (String × String)
  vlans : List VlanData
deriving DecidableEq, Repr

/-- `BuildCLI.get_bulkedit_data`, taking the header row and the data rows of
the (comment-stripped) CSV.  Every MAC whose row completed holds a reference
to the single shared `_common` dict and `_vlans` list, so resolving the
references after the fold yields the final buffer contents for each of them;
a MAC left at the `{}` placeholder (only possible when a later `mac_address`
value in the same row supersedes it) resolves to `none`. -/
def get_bulkedit_data (header : List String) (rows : List (List String)) :
    List (String × Option DeviceEntry) :=
  let st := ingestAll header rows
  st.cliData.map (fun p => (p.1, if p.2 then some ⟨st.common, st.vlans⟩ else none))

/-- The `interface vlan` block of `build_cmds` (source lines 609-621): guarded
by a truthy `vlan_ip`; a falsy `vlan_subnet` is reported but the `ip address`
line is still attempted, and its f-string raises `KeyError` when the
`vlan_subnet` key is absent altogether. -/
def ipSection (v : VlanData) (vid : String) : Except String (List String × List String) :=
  if truthy (dlookup v "vlan_ip") then
    let d := if truthy (dlookup v "vlan_subnet") then []
             else ["Validation Error No subnet mask for VLAN " ++ vid ++ " "]
    match dget v "vlan_ip" with
    | Except.error e => Except.error e
    | Except.ok ip =>
      match dget v "vlan_subnet" with
      | Except.error e => Except.error e
      | Except.ok sn =>
        let c := ["interface vlan " ++ vid, "ip address " ++ ip ++ " " ++ sn]
        let c := c ++ (if truthy (dlookup v "vlan_interface_description") then
                         ["description " ++ svalOpt (dlookup v "vlan_interface_description")] else [])
        let c := c ++ (if truthy (dlookup v "vlan_helper_addr") then
                         ["ip helper-address " ++ svalOpt (dlookup v "vlan_helper_addr")] else [])
        let c := c ++ (if truthy (dlookup v "vlan_interface_operstate") then
                         ["operstate " ++ svalOpt (dlookup v "vlan_interface_operstate")] else [])
        Except.ok (c ++ ["!"], d)
  else Except.ok ([], [])

/-- The PPPoE check of `build_cmds` (source lines 623-624): a warning, no
commands. -/
def pppoeDiag (v : VlanData) : List String :=
  if truthy (dlookup v "pppoe_username") then
    ["Warning PPPoE not supported by this tool yet"]
  else []

/-- The access-port block of `build_cmds` (source lines 626-631): prefix the
port with `gigabitethernet ` exactly when the value does not contain the
substring `thernet` and does not start with `g`. -/
def accessSection (v : VlanData) (vid : String) : List String :=
  if truthy (dlookup v "access_port") then
    let ap := svalOpt (dlookup v "access_port")
    [(if !(pyContains ap "thernet") && !(pyStartsWith ap "g") then
        "interface gigabitethernet " ++ ap
      else
        "interface " ++ ap),
     "switchport access vlan " ++ vid, "!"]
  else []

/-- The DHCP pool block of `build_cmds` (source lines 633-647). -/
def poolSection (v : VlanData) : List String :=
  if truthy (dlookup v "dhcp_pool_name") then
    ["ip dhcp pool " ++ svalOpt (dlookup v "dhcp_pool_name")]
    ++ (if truthy (dlookup v "dhcp_def_gws") then
          (lval (dlookup v "dhcp_def_gws")).map (fun gw => "default-router " ++ gw)
        else [])
    ++ (if truthy (dlookup v "dns_servers") then
          ["dns-server " ++ String.intercalate " " (lval (dlookup v "dns_servers"))]
        else [])
    ++ (if truthy (dlookup v "domain_name") then
          ["domain-name " ++ svalOpt (dlookup v "domain_name")]
        else [])
    ++ (if truthy (dlookup v "dhcp_network") then
          (if truthy (dlookup v "dhcp_mask") then
             ["network " ++ svalOpt (dlookup v "dhcp_network") ++ " " ++ svalOpt (dlookup v "dhcp_mask")]
           else if truthy (dlookup v "dhcp_network_prefix") then
             ["network " ++ svalOpt (dlookup v "dhcp_network") ++ " /" ++
              svalOpt (dlookup v "dhcp_network_prefix")]
           else [])
        else [])
    ++ ["!"]
  else []

/-- The DHCP excludes block of `build_cmds` (source lines 649-652): the
pre-rendered lines are emitted verbatim. -/
def excludesSection (v : VlanData) : List String :=
  if truthy (dlookup v "dhcp_excludes") then lval (dlookup v "dhcp_excludes") else []

/-- The VRRP block of `build_cmds` (source lines 654-661): commands and
diagnostics. -/
def vrrpSection (v : VlanData) (vid : String) : List String × List String :=
  if truthy (dlookup v "vrrp_id") then
    let vrid := svalOpt (dlookup v "vrrp_id")
    if truthy (dlookup v "vrrp_ip") then
      (["vrrp " ++ vrid, "ip address " ++ svalOpt (dlookup v "vrrp_ip"), "vlan " ++ vid]
        ++ (if truthy (dlookup v "vrrp_priority") then
              ["priority " ++ svalOpt (dlookup v "vrrp_priority")] else [])
        ++ ["no shutdown", "!"], [])
    else
      ([], ["Validation Error VRRP ID " ++ vrid ++ " VLAN " ++ vid ++
            " No VRRP IP provided... Skipped"])
  else ([], [])

/-- The BGP-peer check of `build_cmds` (source lines 663-666): warning only. -/
def bgpDiag (v : VlanData) : List String :=
  if truthy (dlookup v "bg_peer_ip") then ["bgp peer ip Not Supported by Script yet"] else []

/-- The Zscaler check of `build_cmds` (source lines 668-669): warning only. -/
def zsDiag (v : VlanData) : List String :=
  if truthy (dlookup v "zs_site_to_site_map_name") || truthy (dlookup v "source_fqdn") then
    ["Zscaler Configuration Not Supported by Script Yet"]
  else []

/-- The body of the per-VLAN loop of `build_cmds` (source lines 607-669) for
one VLAN record: the commands appended to `self.cmds` and the diagnostics
printed, or the propagated `KeyError` (`v['vlan_id']` at line 608, or
`v['vlan_subnet']` at line 613). -/
def emitVlan (v : VlanData) : Except String (List String × List String) :=
  match dget v "vlan_id" with
  | Except.error e => Except.error e
  | Except.ok vid =>
    match ipSection v vid with
    | Except.error e => Except.error e
    | Except.ok ipRes =>
      Except.ok
        (["vlan " ++ vid, "!"] ++ ipRes.1 ++ accessSection v vid ++ poolSection v
           ++ excludesSection v ++ (vrrpSection v vid).1,
         ipRes.2 ++ pppoeDiag v ++ (vrrpSection v vid).2 ++ bgpDiag v ++ zsDiag v)

/-- The per-VLAN loop of `build_cmds` over a device's whole vlan list. -/
def emitVlans : List VlanData → Except String (List String × List String)
  | [] => Except.ok ([], [])
  | v :: rest =>
    match emitVlan v with
    | Except.error e => Except.error e
    | Except.ok r1 =>
      match emitVlans rest with
      | Except.error e => Except.error e
      | Except.ok r2 => Except.ok (r1.1 ++ r2.1, r1.2 ++ r2.2)

/-- One gateway inventory entry as used by `build_cmds` (the fields of the
device-management collaborator's response that the code reads). -/
structure Gateway where
  macaddr : String
  serial : String
deriving DecidableEq, Repr

/-- The device-management collaborator interface used by `build_cmds`
(spec section 6): the gateway inventory returned by
`get_dev_by_type("gateway")`, the current group returned by
`get_group_for_dev_by_serial`, and the success flag returned by
`move_dev_to_group` (which posts the move request and returns `resp.ok`). -/
structure Session where
  gateways : List Gateway
  get_group_for_dev_by_serial : String → String
  move_dev_to_group : String → String → Bool

/-- Python truthiness of an optional common-attribute string. -/
def truthyS : Option String → Bool
  | none => false
  | some x => !(x == "")

/-- The body of the per-device loop of `build_cmds` (source lines 584-669)
for one device: the move-to-group requests issued (always recorded, even if
a later access aborts), and either the commands plus diagnostics, or the
propagated `KeyError` (missing `"_common"` key on a placeholder entry,
missing `group` at line 588, missing `hostname` at line 601 when reporting a
failed move, or a `KeyError` from the VLAN loop). -/
def build_dev (s : Session) (dev : String) (e : Option DeviceEntry) :
    List (String × String) × Except String (List String × List String) :=
  match e with
  | none => ([], Except.error "KeyError: _common")
  | some de =>
    let common := de.common
    let pretty := match dlookup common "hostname" with
                  | some h => h
                  | none => dev
    match dlookup common "group" with
    | none => ([], Except.error "KeyError: group")
    | some g =>
      let d0 := ["Verifying " ++ pretty ++ " is in Group " ++ g ++ "..."]
      let emitRest : List String → Except String (List String × List String) := fun d1 =>
        match emitVlans de.vlans with
        | Except.error e2 => Except.error e2
        | Except.ok vres =>
          let hostCmds := if truthyS (dlookup common "hostname") then
                            ["hostname " ++ (dlookup common "hostname").getD "", "!"]
                          else []
          Except.ok (hostCmds ++ vres.1,
                     d0 ++ d1 ++ ["Building cmds for " ++ pretty] ++ vres.2)
      match s.gateways.filter (fun gw => pyLower gw.macaddr == pyLower dev) with
      | [] => ([], emitRest [])
      | gw :: _ =>
        if g == s.get_group_for_dev_by_serial gw.serial then
          ([], emitRest [" Confirmed"])
        else
          let dmv := [" it is *Not*", "Moving " ++ pretty ++ " to Group " ++ g]
          if s.move_dev_to_group g gw.serial then
            ([(g, gw.serial)], emitRest dmv)
          else
            match dlookup common "hostname" with
            | none => ([(g, gw.serial)], Except.error "KeyError: hostname")
            | some hn =>
              ([(g, gw.serial)],
               emitRest (dmv ++ ["Error Returned Moving " ++ hn ++ " to Group " ++ g]))

/-- The outcome of a `build_cmds` run: the accumulated `self.cmds`, the
diagnostics, the move requests issued, and the uncaught exception that ended
the run, if any. -/
structure RunResult where
  cmds : List String
  diags : List String
  moves : List (String × String)
  err : Option String
deriving DecidableEq, Repr

/-- `BuildCLI.build_cmds`: process the devices in mapping order,
accumulating commands; an uncaught `KeyError` aborts the rest of the run
(diagnostics printed before an abort are not tracked). -/
def build_cmds (s : Session) : List (String × Option DeviceEntry) → RunResult
  | [] => ⟨[], [], [], none⟩
  | (dev, e) :: rest =>
    match build_dev s dev e with
    | (mv, Except.error m) => ⟨[], [], mv, some m⟩
    | (mv, Except.ok r) =>
      let rr := build_cmds s rest
      ⟨r.1 ++ rr.cmds, r.2 ++ rr.diags, mv ++ rr.moves, rr.err⟩

/-! ## Helper lemmas and fixtures -/

/-- Unfolding of `truthy` on a present scalar. -/
theorem truthy_some_s (x : String) : truthy (some (FieldVal.s x)) = !(x == "") := rfl

/-- A session with an empty gateway inventory (device never matched). -/
def sessEmpty : Session := ⟨[], fun _ => "", fun _ _ => true⟩

/-- A session whose inventory matches MAC `m1` with serial `S1`, whose group
lookup always answers `g2`, and whose move request always fails. -/
def sessFailMove : Session := ⟨[⟨"m1", "S1"⟩], fun _ => "g2", fun _ _ => false⟩

/-! ## C10: a missing `group` common attribute aborts the run -/

/-- C10: for every stored DeviceRecord whose common attributes lack the
`group` key, `build_cmds` raises a missing-key error on its first access to
that attribute (source line 588) and aborts the run before emitting any
command for that device. -/
theorem missing_group_aborts (s : Session) (dev : String)
    (common : List (String × String)) (vlans : List VlanData)
    (rest : List (String × Option DeviceEntry))
    (h : dlookup common "group" = none) :
    build_dev s dev (some ⟨common, vlans⟩) = ([], Except.error "KeyError: group") ∧
    build_cmds s ((dev, some ⟨common, vlans⟩) :: rest) =
      ⟨[], [], [], some "KeyError: group"⟩ := by
  have h1 : build_dev s dev (some ⟨common, vlans⟩) = ([], Except.error "KeyError: group") := by
    unfold build_dev
    simp [h]
  refine ⟨h1, ?_⟩
  unfold build_cmds
  rw [h1]

/-- Witness for `missing_group_aborts` at a concrete device whose common
attributes hold only a hostname. -/
theorem missing_group_aborts_witness :
    build_dev sessEmpty "m9" (some ⟨[("hostname", "h9")], []⟩) =
      ([], Except.error "KeyError: group") ∧
    build_cmds sessEmpty [("m9", some ⟨[("hostname", "h9")], []⟩)] =
      ⟨[], [], [], some "KeyError: group"⟩ :=
  missing_group_aborts sessEmpty "m9" [("hostname", "h9")] [] [] (by rfl)

/-! ## C5: VRRP requires an ip, otherwise the whole block is skipped -/

/-- C5: for every VlanRecord with `vrrp_id` set and `vrrp_ip` absent (falsy),
the emitter reports a validation error and emits no line of the VRRP block;
with both set it emits exactly `vrrp <id>`, `ip address <ip>`, `vlan <id>`,
then `priority <p>` only if `vrrp_priority` is set, then `no shutdown` and a
separator (source lines 654-661). -/
theorem vrrp_requires_ip (v : VlanData) (vid vrid : String)
    (hid : dlookup v "vrrp_id" = some (FieldVal.s vrid)) (hne : vrid ≠ "") :
    (truthy (dlookup v "vrrp_ip") = false →
      vrrpSection v vid =
        ([], ["Validation Error VRRP ID " ++ vrid ++ " VLAN " ++ vid ++
              " No VRRP IP provided... Skipped"])) ∧
    (∀ vip, dlookup v "vrrp_ip" = some (FieldVal.s vip) → vip ≠ "" →
      vrrpSection v vid =
        (["vrrp " ++ vrid, "ip address " ++ vip, "vlan " ++ vid]
          ++ (if truthy (dlookup v "vrrp_priority") then
                ["priority " ++ svalOpt (dlookup v "vrrp_priority")] else [])
          ++ ["no shutdown", "!"], [])) := by
  constructor
  · intro hip
    unfold vrrpSection
    simp [hid, truthy_some_s, hne, hip, svalOpt, sval]
  · intro vip hip hipne
    unfold vrrpSection
    simp [hid, hip, truthy_some_s, hne, hipne, svalOpt, sval]

/-- Witness for `vrrp_requires_ip`: both branches at concrete records. -/
theorem vrrp_requires_ip_witness :
    (vrrpSection [("vlan_id", FieldVal.s "10"), ("vrrp_id", FieldVal.s "5")] "10" =
      ([], ["Validation Error VRRP ID 5 VLAN 10 No VRRP IP provided... Skipped"])) ∧
    (vrrpSection [("vlan_id", FieldVal.s "10"), ("vrrp_id", FieldVal.s "5"),
                  ("vrrp_ip", FieldVal.s "10.0.0.3")] "10" =
      (["vrrp 5", "ip address 10.0.0.3", "vlan 10", "no shutdown", "!"], [])) := by
  constructor
  · exact (vrrp_requires_ip _ "10" "5" (by rfl) (by decide)).1 (by rfl)
  · have h := (vrrp_requires_ip [("vlan_id", FieldVal.s "10"), ("vrrp_id", FieldVal.s "5"),
      ("vrrp_ip", FieldVal.s "10.0.0.3")] "10" "5" (by rfl) (by decide)).2
      "10.0.0.3" (by rfl) (by decide)
    simpa using h

/-! ## C3: vlan_ip without vlan_subnet -/

/-- C3 counterexample: for a VlanRecord whose `vlan_ip` is set but whose
`vlan_subnet` key is absent, the emitter does not continue with an empty
placeholder: the f-string at source line 613 raises `KeyError: vlan_subnet`
and the run aborts, contradicting the claim's "still emit ... continuing
(not aborting)". -/
theorem missing_subnet_counterexample :
    emitVlan [("vlan_id", FieldVal.s "10"), ("vlan_ip", FieldVal.s "10.0.0.1")] =
      Except.error "KeyError: vlan_subnet" := by rfl

/-- C3 amended: when `vlan_ip` is set and `vlan_subnet` is present but empty,
the emitter reports the validation error and still emits the `ip address`
line with an empty subnet placeholder and continues; when the `vlan_subnet`
key is absent altogether the emitter raises a missing-key error and aborts. -/
theorem empty_subnet_placeholder (v : VlanData) (vid ip : String)
    (hvid : dlookup v "vlan_id" = some (FieldVal.s vid))
    (hip : dlookup v "vlan_ip" = some (FieldVal.s ip)) (hipne : ip ≠ "") :
    (dlookup v "vlan_subnet" = some (FieldVal.s "") →
      ∃ c d, emitVlan v = Except.ok (c, d) ∧
        ("ip address " ++ ip ++ " ") ∈ c ∧
        ("Validation Error No subnet mask for VLAN " ++ vid ++ " ") ∈ d) ∧
    (dlookup v "vlan_subnet" = none →
      emitVlan v = Except.error "KeyError: vlan_subnet") := by
  constructor
  · intro hsub
    have hipS : ipSection v vid = Except.ok
        (["interface vlan " ++ vid, "ip address " ++ ip ++ " "]
          ++ (if truthy (dlookup v "vlan_interface_description") then
                ["description " ++ svalOpt (dlookup v "vlan_interface_description")] else [])
          ++ (if truthy (dlookup v "vlan_helper_addr") then
                ["ip helper-address " ++ svalOpt (dlookup v "vlan_helper_addr")] else [])
          ++ (if truthy (dlookup v "vlan_interface_operstate") then
                ["operstate " ++ svalOpt (dlookup v "vlan_interface_operstate")] else [])
          ++ ["!"],
         ["Validation Error No subnet mask for VLAN " ++ vid ++ " "]) := by
      unfold ipSection
      simp [hip, hsub, truthy_some_s, hipne, dget, sval, String.append_empty]
    have h1 : emitVlan v = Except.ok
        (["vlan " ++ vid, "!"]
          ++ (["interface vlan " ++ vid, "ip address " ++ ip ++ " "]
              ++ (if truthy (dlookup v "vlan_interface_description") then
                    ["description " ++ svalOpt (dlookup v "vlan_interface_description")] else [])
              ++ (if truthy (dlookup v "vlan_helper_addr") then
                    ["ip helper-address " ++ svalOpt (dlookup v "vlan_helper_addr")] else [])
              ++ (if truthy (dlookup v "vlan_interface_operstate") then
                    ["operstate " ++ svalOpt (dlookup v "vlan_interface_operstate")] else [])
              ++ ["!"])
          ++ accessSection v vid ++ poolSection v ++ excludesSection v ++ (vrrpSection v vid).1,
         ["Validation Error No subnet mask for VLAN " ++ vid ++ " "]
          ++ pppoeDiag v ++ (vrrpSection v vid).2 ++ bgpDiag v ++ zsDiag v) := by
      unfold emitVlan
      simp [dget, hvid, sval, hipS]
    exact ⟨_, _, h1, by simp, by simp⟩
  · intro hsub
    unfold emitVlan ipSection
    simp [dget, hvid, hip, hsub, truthy_some_s, hipne, sval]

/-- Witness for `empty_subnet_placeholder` at a concrete record carrying an
empty `vlan_subnet` value. -/
theorem empty_subnet_placeholder_witness :
    ∃ c d,
      emitVlan [("vlan_id", FieldVal.s "10"), ("vlan_ip", FieldVal.s "10.0.0.1"),
                ("vlan_subnet", FieldVal.s "")] = Except.ok (c, d) ∧
      ("ip address 10.0.0.1 ") ∈ c ∧
      ("Validation Error No subnet mask for VLAN 10 ") ∈ d := by
  have h := (empty_subnet_placeholder
      [("vlan_id", FieldVal.s "10"), ("vlan_ip", FieldVal.s "10.0.0.1"),
       ("vlan_subnet", FieldVal.s "")] "10" "10.0.0.1"
      (by rfl) (by rfl) (by decide)).1 (by rfl)
  simpa using h

/-! ## C6: access-port interface naming -/

/-- C6 counterexample: the value `Ethernet 1/1` contains no case-sensitive
substring `ethernet` and does not start with `g`, so the claim predicts the
`gigabitethernet ` prefix; but the source tests the substring `thernet`
(line 627), which `Ethernet 1/1` does contain, so the value is used
unchanged. -/
theorem access_port_substring_counterexample :
    pyContains "Ethernet 1/1" "ethernet" = false ∧
    pyStartsWith "Ethernet 1/1" "g" = false ∧
    accessSection [("vlan_id", FieldVal.s "10"),
                   ("access_port", FieldVal.s "Ethernet 1/1")] "10" =
      ["interface Ethernet 1/1", "switchport access vlan 10", "!"] ∧
    "interface Ethernet 1/1" ≠ "interface gigabitethernet Ethernet 1/1" :=
  ⟨by decide, by decide, by rfl, by decide⟩

/-- C6 amended: the emitter prefixes the `access_port` value with
`gigabitethernet ` exactly when the value does not contain the substring
`thernet` (case-sensitively) and does not start with `g`; otherwise the
value is used unchanged in the `interface` line, followed by
`switchport access vlan <id>` and a separator. -/
theorem access_port_naming (v : VlanData) (vid ap : String)
    (hap : dlookup v "access_port" = some (FieldVal.s ap)) (hne : ap ≠ "") :
    accessSection v vid =
      [(if !(pyContains ap "thernet") && !(pyStartsWith ap "g") then
          "interface gigabitethernet " ++ ap
        else "interface " ++ ap),
       "switchport access vlan " ++ vid, "!"] ∧
    ((accessSection v vid).head? = some ("interface gigabitethernet " ++ ap) ↔
      (pyContains ap "thernet" = false ∧ pyStartsWith ap "g" = false)) := by
  have hlen : "interface " ++ ap ≠ "interface gigabitethernet " ++ ap := by
    intro h
    have hl := congrArg String.length h
    have h1 : "interface ".length = 10 := rfl
    have h2 : "interface gigabitethernet ".length = 26 := rfl
    simp [String.length_append, h1, h2] at hl
  have heq : accessSection v vid =
      [(if !(pyContains ap "thernet") && !(pyStartsWith ap "g") then
          "interface gigabitethernet " ++ ap
        else "interface " ++ ap),
       "switchport access vlan " ++ vid, "!"] := by
    unfold accessSection
    simp [hap, truthy_some_s, hne, svalOpt, sval]
  refine ⟨heq, ?_⟩
  rw [heq]
  by_cases hc : pyContains ap "thernet" = true
  · simp [hc]
    exact hlen
  · by_cases hg : pyStartsWith ap "g" = true
    · simp [hc, hg]
      exact hlen
    · simp only [Bool.not_eq_true] at hc hg
      simp [hc, hg]

/-- Witness for `access_port_naming` at a bare port number, which receives
the prefix. -/
theorem access_port_naming_witness :
    accessSection [("access_port", FieldVal.s "1/1/3")] "10" =
      [(if !(pyContains "1/1/3" "thernet") && !(pyStartsWith "1/1/3" "g") then
          "interface gigabitethernet 1/1/3"
        else "interface 1/1/3"),
       "switchport access vlan 10", "!"] ∧
    ((accessSection [("access_port", FieldVal.s "1/1/3")] "10").head? =
        some "interface gigabitethernet 1/1/3" ↔
      (pyContains "1/1/3" "thernet" = false ∧ pyStartsWith "1/1/3" "g" = false)) := by
  have h := access_port_naming [("access_port", FieldVal.s "1/1/3")] "10" "1/1/3"
    (by rfl) (by decide)
  simpa using h

/-! ## C8: the pppoe_username column -/

/-- C8 counterexample: a CSV with a `pppoe_username` column.  The key starts
with none of the routing prefixes (the source spells the relevant one
`ppoe`, and `pppoe_username` starts with `pppo`), so ingestion ignores the
column entirely: the resulting VlanRecord holds only `vlan_id` and no
`pppoe_username` key, contradicting the claim that the column is routed into
VLAN-record handling. -/
theorem pppoe_column_ignored_counterexample :
    get_bulkedit_data ["mac_address", "group", "vlan_id", "pppoe_username"]
        [["m1", "g1", "10", "bob"]] =
      [("m1", some ⟨[("group", "g1")], [[("vlan_id", FieldVal.s "10")]]⟩)] ∧
    dlookup [("vlan_id", FieldVal.s "10")] "pppoe_username" = none :=
  ⟨by decide, by rfl⟩

/-- C8 amended: a `pppoe_username` column matches none of the routing
prefixes (the source lists `ppoe`, not `pppoe`) and is ignored by ingestion,
leaving the state unchanged; for every VlanRecord that does have
`pppoe_username` set, the emitter reports the not-supported warning and the
check contributes no command line. -/
theorem pppoe_handling :
    (∀ st v, processKV st ("pppoe_username", v) = st) ∧
    (∀ v, truthy (dlookup v "pppoe_username") = true →
      pppoeDiag v = ["Warning PPPoE not supported by this tool yet"]) ∧
    (∀ v, truthy (dlookup v "pppoe_username") = false → pppoeDiag v = []) := by
  refine ⟨fun st v => rfl, fun v h => ?_, fun v h => ?_⟩
  · unfold pppoeDiag
    simp [h]
  · unfold pppoeDiag
    simp [h]

/-- Witness for `pppoe_handling` at concrete inputs. -/
theorem pppoe_handling_witness :
    processKV initState ("pppoe_username", "bob") = initState ∧
    pppoeDiag [("pppoe_username", FieldVal.s "bob")] =
      ["Warning PPPoE not supported by this tool yet"] ∧
    pppoeDiag [("vlan_id", FieldVal.s "10")] = [] :=
  ⟨pppoe_handling.1 initState "bob",
   pppoe_handling.2.1 [("pppoe_username", FieldVal.s "bob")] (by decide),
   pppoe_handling.2.2 [("vlan_id", FieldVal.s "10")] (by decide)⟩

/-! ## C9: what ingestion appends to the vlan list -/

/-- C9 counterexample: a single row with no VLAN column at all.  The
end-of-row append at source line 578 is unconditional, so the device's vlan
list holds one empty VlanRecord, which contains no `vlan_id` key —
contradicting the claim that every appended record was opened by a
`vlan_id` value. -/
theorem vlanless_record_counterexample :
    get_bulkedit_data ["mac_address", "group"] [["m1", "g1"]] =
      [("m1", some ⟨[("group", "g1")], [[]]⟩)] ∧
    dlookup ([] : VlanData) "vlan_id" = none :=
  ⟨by decide, by rfl⟩

/-- Every single `processKV` step only appends to the shared vlan list. -/
theorem processKV_vlans_mono (st : PState) (kv : String × String) :
    ∃ a, (processKV st kv).vlans = st.vlans ++ a := by
  unfold processKV
  by_cases h1 : (normKey kv.1 == "mac_address") = true
  · rw [if_pos h1]
    exact ⟨[], (List.append_nil st.vlans).symm⟩
  · rw [if_neg h1]
    by_cases h2 : (commonAttrKeys.contains (normKey kv.1)) = true
    · rw [if_pos h2]
      exact ⟨[], (List.append_nil st.vlans).symm⟩
    · rw [if_neg h2]
      by_cases h3 : (vlanRouteKeys.any (fun p => pyStartsWith (normKey kv.1) p)) = true
      case neg =>
        rw [if_neg h3]
        exact ⟨[], (List.append_nil st.vlans).symm⟩
      case pos =>
        rw [if_pos h3]
        by_cases h4 : (normKey kv.1 == "vlan_id") = true
        case pos =>
          rw [if_pos h4]
          by_cases h5 : (st.vlanData.isEmpty) = true
          · rw [if_pos h5]
            exact ⟨[], (List.append_nil st.vlans).symm⟩
          · rw [if_neg h5]
            exact ⟨[st.vlanData], rfl⟩
        case neg =>
          rw [if_neg h4]
          by_cases h6 : (pyStartsWith (normKey kv.1) "dns_server_") = true
          · rw [if_pos h6]
            exact ⟨[], (List.append_nil st.vlans).symm⟩
          · rw [if_neg h6]
            by_cases h7 : (pyStartsWith (normKey kv.1) "dhcp_default_router") = true
            · rw [if_pos h7]
              exact ⟨[], (List.append_nil st.vlans).symm⟩
            · rw [if_neg h7]
              by_cases h8 : (pyStartsWith (normKey kv.1) "dhcp_exclude_start") = true
              · rw [if_pos h8]
                exact ⟨[], (List.append_nil st.vlans).symm⟩
              · rw [if_neg h8]
                by_cases h9 : (pyStartsWith (normKey kv.1) "dhcp_exclude_end") = true
                · rw [if_pos h9]
                  by_cases h10 : (st.excludeStart == "") = true
                  · rw [if_pos h10]
                    exact ⟨[], (List.append_nil st.vlans).symm⟩
                  · rw [if_neg h10]
                    exact ⟨[], (List.append_nil st.vlans).symm⟩
                · rw [if_neg h9]
                  exact ⟨[], (List.append_nil st.vlans).symm⟩

/-- Folding a row's key-value pairs only appends to the shared vlan list. -/
theorem foldl_processKV_vlans_mono (kvs : List (String × String)) (st : PState) :
    ∃ a, (kvs.foldl processKV st).vlans = st.vlans ++ a := by
  induction kvs generalizing st with
  | nil => exact ⟨[], by simp⟩
  | cons kv rest ih =>
    obtain ⟨a2, h2⟩ := ih (processKV st kv)
    obtain ⟨a1, h1⟩ := processKV_vlans_mono st kv
    exact ⟨a1 ++ a2, by simp [List.foldl_cons, h2, h1]⟩

/-- C9 amended: reading a `vlan_id` value appends the previously open
accumulator exactly when it is non-empty (it may lack a `vlan_id` key when
another vlan-routed column preceded the first `vlan_id`), and every row
appends at least one record at end of row, unconditionally — even an empty
accumulator into which no `vlan_id` was ever read.  Appended records
therefore need not contain a `vlan_id` key. -/
theorem row_append_shape :
    (∀ st v, processKV st ("vlan_id", v) =
      { st with
          vlans := st.vlans ++ (if st.vlanData.isEmpty then [] else [st.vlanData]),
          vlanData := [("vlan_id", FieldVal.s v)] }) ∧
    (∀ header st row, ∃ recs,
      (processRow header st row).vlans = st.vlans ++ recs ∧ recs ≠ []) := by
  constructor
  · intro st v
    have hred : processKV st ("vlan_id", v) =
        (if st.vlanData.isEmpty then { st with vlanData := [("vlan_id", FieldVal.s v)] }
         else { st with vlans := st.vlans ++ [st.vlanData],
                        vlanData := [("vlan_id", FieldVal.s v)] }) := rfl
    rw [hred]
    by_cases h : st.vlanData.isEmpty <;> simp [h]
  · intro header st row
    obtain ⟨a, ha⟩ := foldl_processKV_vlans_mono (header.zip row) { st with vlanData := [] }
    refine ⟨a ++ [((header.zip row).foldl processKV { st with vlanData := [] }).vlanData],
      ?_, by simp⟩
    unfold processRow
    simp at ha
    simp [ha]

/-! ## C4: DHCP exclude-range pairing -/

/-- Updating a key makes it present with the new value. -/
theorem dlookup_dset_self {α : Type} (d : List (String × α)) (k : String) (v : α) :
    dlookup (dset d k v) k = some v := by
  induction d with
  | nil => simp [dset, dlookup]
  | cons p rest ih =>
    obtain ⟨k0, v0⟩ := p
    by_cases h : (k0 == k) = true
    · simp [dset, h, dlookup]
    · simp [dset, h, dlookup, ih]

/-- C4: reading a `dhcp_exclude_start` value buffers it as the pending
start; reading a `dhcp_exclude_end` value while a non-empty start is pending
records exactly one pre-rendered `ip dhcp exclude-address <start> <end>`
line in the open VlanRecord's `dhcp_excludes` and clears the pending start;
an end value with no pending start leaves the record unchanged and reports a
validation error; the recording appends exactly the one new line — after an
absent key the list is `[line]`, after a stored list it is the list plus the
line, and after a stored scalar (reachable only through a CSV column
literally named `dhcp_excludes`) Python splats the string into its
one-character strings before the line; and the emitter outputs the recorded
lines verbatim (contiguously) in the block's command list. -/
theorem dhcp_exclude_pairing :
    (∀ st s0, processKV st ("dhcp_exclude_start", s0) = { st with excludeStart := s0 }) ∧
    (∀ st e0, st.excludeStart ≠ "" →
      processKV st ("dhcp_exclude_end", e0) =
        { st with
            vlanData := appendToList st.vlanData "dhcp_excludes"
              ("ip dhcp exclude-address " ++ st.excludeStart ++ " " ++ e0),
            excludeStart := "" }) ∧
    (∀ st e0, st.excludeStart = "" →
      processKV st ("dhcp_exclude_end", e0) =
        { st with diags := st.diags ++
            ["Validation Error DHCP Exclude End with no preceding start (" ++ e0 ++
             ")... Ignoring"] }) ∧
    (∀ d x,
      (dlookup d "dhcp_excludes" = none →
        lval (dlookup (appendToList d "dhcp_excludes" x) "dhcp_excludes") = [x]) ∧
      (∀ xs, dlookup d "dhcp_excludes" = some (FieldVal.l xs) →
        lval (dlookup (appendToList d "dhcp_excludes" x) "dhcp_excludes") = xs ++ [x]) ∧
      (∀ s0, dlookup d "dhcp_excludes" = some (FieldVal.s s0) →
        lval (dlookup (appendToList d "dhcp_excludes" x) "dhcp_excludes") =
          s0.toList.map (fun c => String.mk [c]) ++ [x])) ∧
    (∀ v c d xs, emitVlan v = Except.ok (c, d) →
      dlookup v "dhcp_excludes" = some (FieldVal.l xs) → xs ≠ [] →
      ∃ pre suf, c = pre ++ xs ++ suf) := by
  refine ⟨fun st s0 => rfl, fun st e0 h => ?_, fun st e0 h => ?_, fun d x => ?_, ?_⟩
  · have hred : processKV st ("dhcp_exclude_end", e0) =
        (if st.excludeStart == "" then
          { st with diags := st.diags ++
              ["Validation Error DHCP Exclude End with no preceding start (" ++ e0 ++
               ")... Ignoring"] }
         else
          { st with
              vlanData := appendToList st.vlanData "dhcp_excludes"
                ("ip dhcp exclude-address " ++ st.excludeStart ++ " " ++ e0),
              excludeStart := "" }) := rfl
    rw [hred, if_neg (by simp [h])]
  · have hred : processKV st ("dhcp_exclude_end", e0) =
        (if st.excludeStart == "" then
          { st with diags := st.diags ++
              ["Validation Error DHCP Exclude End with no preceding start (" ++ e0 ++
               ")... Ignoring"] }
         else
          { st with
              vlanData := appendToList st.vlanData "dhcp_excludes"
                ("ip dhcp exclude-address " ++ st.excludeStart ++ " " ++ e0),
              excludeStart := "" }) := rfl
    rw [hred, if_pos (by simp [h])]
  · refine ⟨fun hcur => ?_, fun xs hcur => ?_, fun s0 hcur => ?_⟩ <;>
      (unfold appendToList; rw [hcur]; dsimp only; rw [dlookup_dset_self]; rfl)
  · intro v c d xs hok hx hne
    unfold emitVlan at hok
    cases hvid : dget v "vlan_id" with
    | error e1 => rw [hvid] at hok; exact absurd hok (by simp)
    | ok vid =>
      rw [hvid] at hok
      dsimp only at hok
      cases hip : ipSection v vid with
      | error e1 => rw [hip] at hok; exact absurd hok (by simp)
      | ok ipres =>
        rw [hip] at hok
        dsimp only at hok
        simp only [Except.ok.injEq, Prod.mk.injEq] at hok
        obtain ⟨hc, hd⟩ := hok
        have hex : excludesSection v = xs := by
          unfold excludesSection
          cases xs with
          | nil => exact absurd rfl hne
          | cons a t => simp [hx, truthy, lval, List.isEmpty]
        rw [hex] at hc
        exact ⟨["vlan " ++ vid, "!"] ++ ipres.1 ++ accessSection v vid ++ poolSection v,
               (vrrpSection v vid).1, by rw [← hc]⟩

/-- Witness for `dhcp_exclude_pairing` at concrete states and records: the
start buffering, both end branches, all three append cases (absent key,
stored list, stored scalar splatted into its characters), and the verbatim
emission of a recorded line. -/
theorem dhcp_exclude_pairing_witness :
    (processKV initState ("dhcp_exclude_start", "10.0.0.2") =
      { initState with excludeStart := "10.0.0.2" }) ∧
    (processKV { initState with excludeStart := "10.0.0.2" } ("dhcp_exclude_end", "10.0.0.10") =
      { initState with
          vlanData := appendToList initState.vlanData "dhcp_excludes"
            ("ip dhcp exclude-address " ++ "10.0.0.2" ++ " " ++ "10.0.0.10"),
          excludeStart := "" }) ∧
    (processKV initState ("dhcp_exclude_end", "10.0.0.10") =
      { initState with diags := initState.diags ++
          ["Validation Error DHCP Exclude End with no preceding start (" ++ "10.0.0.10" ++
           ")... Ignoring"] }) ∧
    (lval (dlookup (appendToList [] "dhcp_excludes" "L1") "dhcp_excludes") = ["L1"]) ∧
    (lval (dlookup (appendToList [("dhcp_excludes", FieldVal.l ["L0"])]
        "dhcp_excludes" "L1") "dhcp_excludes") = ["L0", "L1"]) ∧
    (lval (dlookup (appendToList [("dhcp_excludes", FieldVal.s "ab")]
        "dhcp_excludes" "L1") "dhcp_excludes") = ["a", "b", "L1"]) ∧
    (∃ pre suf,
      ["vlan 10", "!", "ip dhcp exclude-address 10.0.0.2 10.0.0.10"] =
        pre ++ ["ip dhcp exclude-address 10.0.0.2 10.0.0.10"] ++ suf) := by
  refine ⟨dhcp_exclude_pairing.1 initState "10.0.0.2", ?_,
    dhcp_exclude_pairing.2.2.1 initState "10.0.0.10" rfl, ?_, ?_, ?_, ?_⟩
  · exact dhcp_exclude_pairing.2.1 { initState with excludeStart := "10.0.0.2" } "10.0.0.10"
      (by decide)
  · exact (dhcp_exclude_pairing.2.2.2.1 [] "L1").1 (by rfl)
  · exact (dhcp_exclude_pairing.2.2.2.1 [("dhcp_excludes", FieldVal.l ["L0"])] "L1").2.1
      ["L0"] (by rfl)
  · have h := (dhcp_exclude_pairing.2.2.2.1 [("dhcp_excludes", FieldVal.s "ab")] "L1").2.2
      "ab" (by rfl)
    rw [h]
    decide
  · exact dhcp_exclude_pairing.2.2.2.2
      [("vlan_id", FieldVal.s "10"),
       ("dhcp_excludes", FieldVal.l ["ip dhcp exclude-address 10.0.0.2 10.0.0.10"])]
      ["vlan 10", "!", "ip dhcp exclude-address 10.0.0.2 10.0.0.10"] []
      ["ip dhcp exclude-address 10.0.0.2 10.0.0.10"]
      (by rfl) (by rfl) (by decide)

/-! ## C2: the working buffers are shared across the whole file -/

/-- Looking up a resolved entry of `get_bulkedit_data` can only yield the
final shared buffer contents. -/
theorem dlookup_resolved (l : List (String × Bool)) (ce : DeviceEntry) (m : String)
    (d : DeviceEntry)
    (h : dlookup (l.map (fun p => (p.1, if p.2 then some ce else none))) m = some (some d)) :
    d = ce := by
  induction l with
  | nil => simp [dlookup] at h
  | cons p rest ih =>
    by_cases hm : (p.1 == m) = true
    · rw [List.map_cons] at h
      unfold dlookup at h
      rw [if_pos hm] at h
      by_cases hb : p.2 <;> simp [hb] at h
      exact h.symm
    · rw [List.map_cons] at h
      unfold dlookup at h
      rw [if_neg hm] at h
      exact ih h

/-- C2: after ingestion, every device stored in the resulting mapping (with
a resolved, non-placeholder entry) references the same shared
common-attribute map and the same shared VLAN list: any two stored
DeviceRecords are equal, and each equals the whole-file accumulated state of
`_common` and `_vlans` — each device's snapshot aliases the state of all
rows processed, not just its own. -/
theorem shared_buffer_aliasing (header : List String) (rows : List (List String))
    (m1 m2 : String) (d1 d2 : DeviceEntry)
    (h1 : dlookup (get_bulkedit_data header rows) m1 = some (some d1))
    (h2 : dlookup (get_bulkedit_data header rows) m2 = some (some d2)) :
    d1 = d2 ∧
    d1.common = (ingestAll header rows).common ∧
    d1.vlans = (ingestAll header rows).vlans := by
  unfold get_bulkedit_data at h1 h2
  have e1 := dlookup_resolved _ _ _ _ h1
  have e2 := dlookup_resolved _ _ _ _ h2
  refine ⟨e1.trans e2.symm, ?_, ?_⟩ <;> rw [e1]

/-- Witness for `shared_buffer_aliasing` on a two-device file: both devices
resolve to the same record, whose vlan list holds the rows of both. -/
theorem shared_buffer_aliasing_witness :
    ∃ d1 d2 : DeviceEntry,
      dlookup (get_bulkedit_data ["mac_address", "group", "vlan_id"]
          [["m1", "g1", "10"], ["m2", "g2", "20"]]) "m1" = some (some d1) ∧
      dlookup (get_bulkedit_data ["mac_address", "group", "vlan_id"]
          [["m1", "g1", "10"], ["m2", "g2", "20"]]) "m2" = some (some d2) ∧
      d1 = d2 ∧
      d1.vlans = [[("vlan_id", FieldVal.s "10")], [("vlan_id", FieldVal.s "20")]] := by
  have hl1 : dlookup (get_bulkedit_data ["mac_address", "group", "vlan_id"]
      [["m1", "g1", "10"], ["m2", "g2", "20"]]) "m1" =
      some (some ⟨[("group", "g2")],
        [[("vlan_id", FieldVal.s "10")], [("vlan_id", FieldVal.s "20")]]⟩) := by decide
  have hl2 : dlookup (get_bulkedit_data ["mac_address", "group", "vlan_id"]
      [["m1", "g1", "10"], ["m2", "g2", "20"]]) "m2" =
      some (some ⟨[("group", "g2")],
        [[("vlan_id", FieldVal.s "10")], [("vlan_id", FieldVal.s "20")]]⟩) := by decide
  have h := shared_buffer_aliasing ["mac_address", "group", "vlan_id"]
    [["m1", "g1", "10"], ["m2", "g2", "20"]] "m1" "m2" _ _ hl1 hl2
  exact ⟨_, _, hl1, hl2, h.1, by rw [h.2.2]; decide⟩

/-! ## C1: one vlan block per VlanRecord, not per distinct vlan_id -/

/-- The vlan_id values recorded in a device's vlan list. -/
def recordedVlanIds (de : DeviceEntry) : List String :=
  de.vlans.filterMap (fun vd =>
    match dlookup vd "vlan_id" with
    | some (FieldVal.s x) => some x
    | _ => none)

/-- C1 counterexample: a device whose two rows both carry `vlan_id` 10.  The
emitter produces one `vlan 10` header per VlanRecord (source line 608), so
two `vlan ` lines are emitted although only one distinct vlan_id value is
recorded — the claimed equality with the number of distinct values fails. -/
theorem vlan_line_count_counterexample :
    dlookup (get_bulkedit_data ["mac_address", "group", "vlan_id"]
        [["m1", "g1", "10"], ["m1", "g1", "10"]]) "m1" =
      some (some ⟨[("group", "g1")],
        [[("vlan_id", FieldVal.s "10")], [("vlan_id", FieldVal.s "10")]]⟩) ∧
    ((build_cmds sessEmpty (get_bulkedit_data ["mac_address", "group", "vlan_id"]
        [["m1", "g1", "10"], ["m1", "g1", "10"]])).cmds.filter
      (fun s2 => pyStartsWith s2 "vlan ")).length = 2 ∧
    ((recordedVlanIds ⟨[("group", "g1")],
        [[("vlan_id", FieldVal.s "10")], [("vlan_id", FieldVal.s "10")]]⟩).dedup).length = 1 ∧
    (2 : Nat) ≠ 1 := by
  refine ⟨by decide, by decide, by decide, by decide⟩

/-- C1 amended: for every device whose emission succeeds, the per-VLAN
output is the concatenation of one block per VlanRecord in list order, each
block beginning with the `vlan <id>` line for that record's vlan_id — so the
number of block headers equals the number of VlanRecords (which exceeds the
number of distinct vlan_id values whenever an id repeats). -/
theorem vlan_block_per_record (vs : List VlanData) (c d : List String)
    (h : emitVlans vs = Except.ok (c, d)) :
    ∃ pieces : List (List String), pieces.length = vs.length ∧ c = pieces.flatten ∧
      ∀ p ∈ pieces.zip vs, ∃ vid, dget p.2 "vlan_id" = Except.ok vid ∧
        p.1.head? = some ("vlan " ++ vid) := by
  induction vs generalizing c d with
  | nil =>
    unfold emitVlans at h
    simp only [Except.ok.injEq, Prod.mk.injEq] at h
    exact ⟨[], rfl, by simp [← h.1], by simp⟩
  | cons v rest ih =>
    unfold emitVlans at h
    cases h1 : emitVlan v with
    | error e1 => rw [h1] at h; exact absurd h (by simp)
    | ok r1 =>
      rw [h1] at h
      dsimp only at h
      cases h2 : emitVlans rest with
      | error e1 => rw [h2] at h; exact absurd h (by simp)
      | ok r2 =>
        rw [h2] at h
        dsimp only at h
        simp only [Except.ok.injEq, Prod.mk.injEq] at h
        obtain ⟨hc, hd⟩ := h
        obtain ⟨pieces, hplen, hpjoin, hpmem⟩ := ih r2.1 r2.2 (by rw [h2])
        have hhead : ∃ vid, dget v "vlan_id" = Except.ok vid ∧
            r1.1.head? = some ("vlan " ++ vid) := by
          unfold emitVlan at h1
          cases hvid : dget v "vlan_id" with
          | error e2 => rw [hvid] at h1; exact absurd h1 (by simp)
          | ok vid =>
            rw [hvid] at h1
            dsimp only at h1
            cases hip : ipSection v vid with
            | error e2 => rw [hip] at h1; exact absurd h1 (by simp)
            | ok ipres =>
              rw [hip] at h1
              dsimp only at h1
              simp only [Except.ok.injEq] at h1
              exact ⟨vid, rfl, by rw [← h1]; rfl⟩
        obtain ⟨vid, hvid, hh⟩ := hhead
        refine ⟨r1.1 :: pieces, by simp [hplen], ?_, ?_⟩
        · rw [← hc, hpjoin]
          simp
        · intro p hp
          rcases List.mem_cons.mp (by simpa using hp) with hfst | hrest
        <;> first
          | exact hfst ▸ ⟨vid, hvid, hh⟩
          | exact hpmem p hrest

/-- Witness for `vlan_block_per_record` on a device with two records for the
same vlan_id. -/
theorem vlan_block_per_record_witness :
    ∃ pieces : List (List String),
      pieces.length =
        ([[("vlan_id", FieldVal.s "10")], [("vlan_id", FieldVal.s "10")]] : List VlanData).length ∧
      ["vlan 10", "!", "vlan 10", "!"] = pieces.flatten ∧
      ∀ p ∈ pieces.zip
          ([[("vlan_id", FieldVal.s "10")], [("vlan_id", FieldVal.s "10")]] : List VlanData),
        ∃ vid, dget p.2 "vlan_id" = Except.ok vid ∧
          p.1.head? = some ("vlan " ++ vid) :=
  vlan_block_per_record
    [[("vlan_id", FieldVal.s "10")], [("vlan_id", FieldVal.s "10")]]
    ["vlan 10", "!", "vlan 10", "!"] [] (by rfl)

/-! ## C7: group reconciliation and move requests -/

/-- C7 counterexample: a matched device whose assigned group differs, whose
move request fails, and whose common attributes carry no `hostname`.  The
failure report at source line 601 reads `common['hostname']` directly, so
the logical move failure raises `KeyError: hostname` and stops command
emission for the device — contradicting the claim that a failed move is
reported but does not stop emission.  The move request itself was issued. -/
theorem failed_move_counterexample :
    build_dev sessFailMove "m1" (some ⟨[("group", "g1")], []⟩) =
      ([("g1", "S1")], Except.error "KeyError: hostname") ∧
    build_cmds sessFailMove [("m1", some ⟨[("group", "g1")], []⟩)] =
      ⟨[], [], [("g1", "S1")], some "KeyError: hostname"⟩ :=
  ⟨by rfl, by rfl⟩

/-- C7 amended: for a device with a `group` attribute, a move-to-group
request is issued if and only if the device is matched in the gateway
inventory and its currently-assigned group differs from the desired group;
a move request that returns a logical failure is reported and does not stop
command emission for that device provided the device's `hostname` attribute
is present (when it is absent, the failure report itself raises a
missing-key error and aborts, as the counterexample shows). -/
theorem move_iff_group_differs (s : Session) (dev : String)
    (common : List (String × String)) (vlans : List VlanData) (g : String)
    (hg : dlookup common "group" = some g) :
    (s.gateways.filter (fun gw => pyLower gw.macaddr == pyLower dev) = [] →
      (build_dev s dev (some ⟨common, vlans⟩)).1 = []) ∧
    (∀ gw grest,
      s.gateways.filter (fun gw2 => pyLower gw2.macaddr == pyLower dev) = gw :: grest →
      ((build_dev s dev (some ⟨common, vlans⟩)).1 =
        if g == s.get_group_for_dev_by_serial gw.serial then [] else [(g, gw.serial)]) ∧
      ((g == s.get_group_for_dev_by_serial gw.serial) = false →
       s.move_dev_to_group g gw.serial = false →
       ∀ hn, dlookup common "hostname" = some hn →
       ∀ vc vd, emitVlans vlans = Except.ok (vc, vd) →
       ∃ ds, build_dev s dev (some ⟨common, vlans⟩) =
         ([(g, gw.serial)],
          Except.ok ((if hn == "" then [] else ["hostname " ++ hn, "!"]) ++ vc, ds)) ∧
         ("Error Returned Moving " ++ hn ++ " to Group " ++ g) ∈ ds)) := by
  constructor
  · intro hfil
    unfold build_dev
    dsimp only
    rw [hg]
    dsimp only
    rw [hfil]
  · intro gw grest hfil
    constructor
    · unfold build_dev
      dsimp only
      rw [hg]
      dsimp only
      rw [hfil]
      dsimp only
      by_cases hgeq : (g == s.get_group_for_dev_by_serial gw.serial) = true
      · rw [if_pos hgeq, if_pos hgeq]
      · rw [if_neg hgeq, if_neg hgeq]
        by_cases hmv : (s.move_dev_to_group g gw.serial) = true
        · rw [if_pos hmv]
        · rw [if_neg hmv]
          cases hh : dlookup common "hostname" <;> rfl
    · intro hgeq hmv hn hh vc vd hvl
      unfold build_dev
      dsimp only
      rw [hg]
      dsimp only
      rw [hfil]
      dsimp only
      rw [if_neg (by simp [hgeq]), if_neg (by simp [hmv]), hh]
      dsimp only
      rw [hvl]
      dsimp only
      refine ⟨["Verifying " ++ hn ++ " is in Group " ++ g ++ "..."] ++
          ([" it is *Not*", "Moving " ++ hn ++ " to Group " ++ g] ++
           ["Error Returned Moving " ++ hn ++ " to Group " ++ g]) ++
          ["Building cmds for " ++ hn] ++ vd, ?_, ?_⟩
      · by_cases hhn : (hn == "") = true
        · simp [truthyS, hhn]
        · simp [truthyS, hhn]
      · simp

/-- Witness for `move_iff_group_differs`: the unmatched case under
`sessEmpty`, and a matched device with differing group, failing move and
present hostname under `sessFailMove` — emission continues and the failure
is reported. -/
theorem move_iff_group_differs_witness :
    ((build_dev sessEmpty "m1" (some ⟨[("group", "g1")], []⟩)).1 = []) ∧
    (∃ ds, build_dev sessFailMove "m1"
        (some ⟨[("group", "g1"), ("hostname", "h1")], []⟩) =
      ([("g1", "S1")], Except.ok (["hostname h1", "!"], ds)) ∧
      ("Error Returned Moving h1 to Group g1") ∈ ds) := by
  constructor
  · exact (move_iff_group_differs sessEmpty "m1" [("group", "g1")] [] "g1" (by rfl)).1 (by rfl)
  · have h := ((move_iff_group_differs sessFailMove "m1"
      [("group", "g1"), ("hostname", "h1")] [] "g1" (by rfl)).2
      ⟨"m1", "S1"⟩ [] (by rfl)).2 (by rfl) (by rfl) "h1" (by rfl) [] [] (by rfl)
    simpa using h

end CentralCli
